import Mathlib

/-!
Verification of the workflow-orchestration layer of the portfolio optimizer
backend: a shallow embedding, in Lean, of the routing decision functions,
the digest risk-alert rule, the news-classification stage, the confirmation
lifecycle, reference resolution, the session store, and the portfolio
fingerprint, together with theorems settling the specified properties.

Numeric fields that are Python floats are modelled as rationals; Python
dictionaries are modelled as functions into Option; collaborators that the
stages call (LLM completion, the relational portfolio service) are passed in
as oracle parameters, and a call that may raise is an oracle returning
Option.
-/

/-! ## Python string primitives -/

/-- Boolean test that the first character list is a leading segment of the
second. -/
def leadingSegOf : List Char → List Char → Bool
  | [], _ => true
  | _ :: _, [] => false
  | a :: as, b :: bs => a == b && leadingSegOf as bs

/-- Boolean substring test on character lists: the semantics of the Python
`in` operator on strings. -/
def subSegOf (needle : List Char) : List Char → Bool
  | [] => leadingSegOf needle []
  | b :: bs => leadingSegOf needle (b :: bs) || subSegOf needle bs

/-- Python `needle in hay` on strings. -/
def pyIn (needle hay : String) : Bool := subSegOf needle.data hay.data

/-- Python str.lower, on the ASCII text the code feeds it. -/
def pyLower (s : String) : String := ⟨s.data.map Char.toLower⟩

/-- Python str.upper, on the ASCII text the code feeds it. -/
def pyUpper (s : String) : String := ⟨s.data.map Char.toUpper⟩

/-! ## Asset model

The closed union of the five asset shapes from models/assets.py; the shapes
are identical in both backend iterations. -/

/-- Tagged union over the five asset kinds (stock, crypto, real estate,
mortgage, cash). -/
inductive Asset where
  | stock (ticker : String) (shares : ℚ)
  | crypto (symbol : String) (amount : ℚ)
  | realEstate (address : String) (market_value : ℚ)
  | mortgage (lender : String) (balance : ℚ) (property_address : Option String)
  | cash (currency : String) (amount : ℚ)
  deriving DecidableEq, Repr

/-- Stable per-asset key, from AnalysisTool._get_asset_key in
backend/app/agents/tools.py (the unknown-type fallback branch is
unreachable over the closed union). -/
def Asset.key : Asset → String
  | .stock t _ => "stock:" ++ t
  | .crypto s _ => "crypto:" ++ s
  | .realEstate a _ => "real_estate:" ++ a
  | .mortgage l _ _ => "mortgage:" ++ l
  | .cash c _ => "cash:" ++ c

/-! ## C1: the analysis-pipeline routing decision after search_vector_db -/

/-- The fields of AgentState that _should_search_news consults: the assets
being analyzed and the found_items count of the vector_context dictionary
(absent vector_context reads as found_items 0, matching
state.get with default). -/
structure AnalysisRouteState where
  assets_to_analyze : List Asset
  vector_found_items : Option Nat
  deriving DecidableEq

/-- Decision function on the conditional edge leaving search_vector_db, from
_should_search_news in backend/app/agent/graph.py (the wrapped variant in
backend/app/agents/portfolio_agent.py computes the same comparison). The key
"analyze" routes to analyze_assets, the key "search_news" to search_news. -/
def should_search_news (state : AnalysisRouteState) : String :=
  let found_items := state.vector_found_items.getD 0
  if found_items ≥ state.assets_to_analyze.length * 2 then "analyze"
  else "search_news"

/-- Sample asset used to instantiate concrete routing states. -/
def sampleStock : Asset := .stock "AAPL" 10

/-- C1: the decision function after search_vector_db returns the key routing
to analyze_assets exactly when found_items is at least twice the number of
assets to analyze, and returns the key routing to search_news in every other
state; with three assets, found_items = 6 skips the news search and
found_items = 5 does not. -/
theorem c1_skip_threshold :
    (∀ s : AnalysisRouteState,
        should_search_news s = "analyze" ↔
          2 * s.assets_to_analyze.length ≤ s.vector_found_items.getD 0)
      ∧ (∀ s : AnalysisRouteState,
        should_search_news s = "analyze" ∨ should_search_news s = "search_news")
      ∧ should_search_news ⟨[sampleStock, sampleStock, sampleStock], some 6⟩ = "analyze"
      ∧ should_search_news ⟨[sampleStock, sampleStock, sampleStock], some 5⟩ = "search_news" := by
  refine ⟨fun s => ?_, fun s => ?_, by decide, by decide⟩
  · unfold should_search_news
    by_cases h : s.vector_found_items.getD 0 ≥ s.assets_to_analyze.length * 2
    · simp only [h, if_pos]
      constructor
      · intro _; omega
      · intro _; trivial
    · simp only [h, if_neg, if_false]
      constructor
      · intro hcontra; exact absurd hcontra (by decide)
      · intro hle; exact absurd (by omega : s.vector_found_items.getD 0 ≥ s.assets_to_analyze.length * 2) h
  · unfold should_search_news
    by_cases h : s.vector_found_items.getD 0 ≥ s.assets_to_analyze.length * 2
    · left; simp [h]
    · right; simp [h]

/-! ## C4: the digest risk-alert rule -/

/-- Per-asset analysis result, from AnalysisResult in
backend/app/agent/state.py, restricted to the fields the digest stage
reads (the asset and news_items fields play no role in the alert rule). -/
structure AnalysisResult where
  asset_key : String
  sentiment_summary : String
  risk_assessment : String
  recommendations : List String
  confidence_score : ℚ
  deriving DecidableEq

/-- The fixed keyword set of the risk-alert check in _create_digest. -/
def risk_keywords : List String :=
  ["high risk", "significant", "warning", "concern", "volatile"]

/-- The per-result risk-alert condition of _create_digest in
backend/app/agent/graph.py (identical in _create_digest_wrapped in
backend/app/agents/portfolio_agent.py): confidence above 0.6 and some
keyword occurring in the lower-cased risk text. -/
def is_risk_alert (r : AnalysisResult) : Bool :=
  decide (mkRat 6 10 < r.confidence_score)
    && risk_keywords.any (fun keyword => pyIn keyword (pyLower r.risk_assessment))

/-- The risk_alerts accumulator built by the loop over analysis_results in
_create_digest: the alert line for each result passing the check, in input
order. -/
def create_digest_risk_alerts : List AnalysisResult → List String
  | [] => []
  | r :: rest =>
    if is_risk_alert r then
      (r.asset_key ++ ": " ++ r.risk_assessment) :: create_digest_risk_alerts rest
    else
      create_digest_risk_alerts rest

/-- Concrete analysis result with the risk text of the specified scenario. -/
def volatileResult (conf : ℚ) : AnalysisResult :=
  { asset_key := "stock:AAPL"
    sentiment_summary := "neutral"
    risk_assessment := "significant downside volatility"
    recommendations := []
    confidence_score := conf }

/-- C4: the digest includes exactly the results whose confidence is strictly
above 0.6 and whose lower-cased risk text contains one of the five keywords;
confidence 0.65 with text about significant downside volatility passes, the
same text with confidence 0.5 does not. -/
theorem c4_risk_alert_rule :
    (∀ results : List AnalysisResult,
        create_digest_risk_alerts results
          = (results.filter (fun r => is_risk_alert r)).map
              (fun r => r.asset_key ++ ": " ++ r.risk_assessment))
      ∧ (∀ r : AnalysisResult,
        is_risk_alert r = true ↔
          ((0.6 : ℚ) < r.confidence_score
            ∧ ∃ keyword ∈ risk_keywords,
                pyIn keyword (pyLower r.risk_assessment) = true))
      ∧ (mkRat 65 100 : ℚ) = (0.65 : ℚ)
      ∧ (mkRat 5 10 : ℚ) = (0.5 : ℚ)
      ∧ is_risk_alert (volatileResult (mkRat 65 100)) = true
      ∧ is_risk_alert (volatileResult (mkRat 5 10)) = false := by
  refine ⟨fun results => ?_, fun r => ?_, by norm_num [mkRat], by norm_num [mkRat],
    by decide, by decide⟩
  · induction results with
    | nil => rfl
    | cons r rest ih =>
      by_cases h : is_risk_alert r
      · simp [create_digest_risk_alerts, h, ih]
      · simp [create_digest_risk_alerts, h, ih]
  · have h06 : (0.6 : ℚ) = mkRat 6 10 := by norm_num [mkRat]
    unfold is_risk_alert
    rw [Bool.and_eq_true, decide_eq_true_eq, List.any_eq_true, h06]

/-! ## C9: the portfolio fingerprint computed in store_results -/

/-- Rendering of an asset to the string entering the fingerprint, modelling
Python str(asset) on the pydantic asset models. The exact rendering text is
immaterial below: the permutation-invariance theorem quantifies over the
hash applied afterwards, and renderings of equal assets are equal by
construction. -/
def assetStr : Asset → String
  | .stock t s => "type=stock ticker=" ++ t ++ " shares=" ++ toString s
  | .crypto s a => "type=crypto symbol=" ++ s ++ " amount=" ++ toString a
  | .realEstate a v =>
    "type=real_estate address=" ++ a ++ " market_value=" ++ toString v
  | .mortgage l b p =>
    "type=mortgage lender=" ++ l ++ " balance=" ++ toString b
      ++ " property_address=" ++ p.getD "None"
  | .cash c a => "type=cash currency=" ++ c ++ " amount=" ++ toString a

/-- The sorted list of asset renderings whose rendering is md5-hashed by
_store_results in backend/app/agent/graph.py (and identically by
_store_results_wrapped in backend/app/agents/portfolio_agent.py):
sorted([str(asset) for asset in portfolio.assets]). Python sorted on
strings is the unique lexicographically ordered permutation, embodied here
by insertion sort under the string order. -/
def portfolio_fingerprint_input (assets : List Asset) : List String :=
  List.insertionSort (· ≤ ·) (assets.map assetStr)

/-- C9: the fingerprint is invariant under permutation of the asset list:
whatever hash is applied to the sorted rendering list (md5 in the source),
two portfolios holding the same multiset of assets receive the same
fingerprint. -/
theorem c9_fingerprint_perm_invariant
    (md5hex : List String → String) (l₁ l₂ : List Asset) (hp : l₁.Perm l₂) :
    md5hex (portfolio_fingerprint_input l₁)
      = md5hex (portfolio_fingerprint_input l₂) := by
  have h : portfolio_fingerprint_input l₁ = portfolio_fingerprint_input l₂ := by
    apply List.eq_of_perm_of_sorted (r := (· ≤ ·))
    · exact (List.perm_insertionSort _ _).trans
        ((hp.map assetStr).trans (List.perm_insertionSort _ _).symm)
    · exact List.sorted_insertionSort _ _
    · exact List.sorted_insertionSort _ _
  rw [h]

/-- Witness for C9: a two-asset portfolio and its reversal are a concrete
permutation, and the theorem yields equal fingerprints for a concrete hash
function. -/
theorem c9_fingerprint_perm_invariant_witness :
    ([sampleStock, Asset.cash "USD" 10000].Perm
        [Asset.cash "USD" 10000, sampleStock])
      ∧ String.intercalate ","
          (portfolio_fingerprint_input [sampleStock, Asset.cash "USD" 10000])
        = String.intercalate ","
          (portfolio_fingerprint_input [Asset.cash "USD" 10000, sampleStock]) :=
  ⟨by decide,
    c9_fingerprint_perm_invariant (fun l => String.intercalate "," l) _ _ (by decide)⟩

/-! ## C8: the classify_news stage keeps unclassifiable items -/

/-- Raw or classified news finding, from NewsItem in
backend/app/agent/state.py (published_at is an epoch number here). -/
structure NewsItem where
  title : String
  snippet : String
  url : String
  published_at : Option Nat
  source : Option String
  sentiment : Option String
  impact : Option String
  relevance_score : Option ℚ
  asset_related : Option String
  deriving DecidableEq

/-- Inner loop of _classify_news over the news items grouped under one
asset: each item is replaced by its classification, and is appended
unchanged when the classification collaborator raises (the try/except
around classification_tool.classify_news_item, modelled by the oracle
returning none). -/
def classify_group (classifier : NewsItem → Asset → Option NewsItem)
    (asset : Asset) : List NewsItem → List NewsItem
  | [] => []
  | item :: rest =>
    (match classifier item asset with
      | some classified => classified
      | none => item) :: classify_group classifier asset rest

/-- The classify_news stage of backend/app/agent/graph.py: raw findings are
grouped by asset key (Python dict insertion grouping preserves the original
order within a key, hence the filter), each asset of assets_to_analyze is
visited in order, and its group is classified item by item. The stage is a
total function of the oracle: no classification failure escapes it. -/
def classify_news (classifier : NewsItem → Asset → Option NewsItem)
    (assets_to_analyze : List Asset) (raw_news : List NewsItem) :
    List NewsItem :=
  match assets_to_analyze with
  | [] => []
  | asset :: rest =>
    classify_group classifier asset
        (raw_news.filter (fun item => item.asset_related == some asset.key))
      ++ classify_news classifier rest raw_news

/-- Helper: classifying a group keeps an entry for every member. -/
theorem mem_classify_group {classifier : NewsItem → Asset → Option NewsItem}
    {asset : Asset} {l : List NewsItem} {item : NewsItem} (h : item ∈ l) :
    (match classifier item asset with
      | some classified => classified
      | none => item) ∈ classify_group classifier asset l := by
  induction l with
  | nil => cases h
  | cons x xs ih =>
    rcases List.mem_cons.mp h with rfl | hx
    · simp [classify_group]
    · simp only [classify_group, List.mem_cons]
      exact Or.inr (ih hx)

/-- C8: for every raw news item whose asset key matches one of the assets
being analyzed, the output of the classify_news stage contains an entry for
that item: its classification when the collaborator succeeds, the item
itself unchanged when the collaborator fails; in particular a failed item is
never dropped. -/
theorem c8_classify_keeps_items
    (classifier : NewsItem → Asset → Option NewsItem)
    (assets_to_analyze : List Asset) (raw_news : List NewsItem)
    (item : NewsItem) (asset : Asset)
    (hasset : asset ∈ assets_to_analyze)
    (hitem : item ∈ raw_news)
    (hkey : item.asset_related = some asset.key) :
    ((match classifier item asset with
      | some classified => classified
      | none => item) ∈ classify_news classifier assets_to_analyze raw_news)
      ∧ (classifier item asset = none →
        item ∈ classify_news classifier assets_to_analyze raw_news) := by
  have hmem : (match classifier item asset with
      | some classified => classified
      | none => item) ∈ classify_news classifier assets_to_analyze raw_news := by
    induction assets_to_analyze with
    | nil => cases hasset
    | cons a rest ih =>
      rcases List.mem_cons.mp hasset with rfl | ha
      · refine List.mem_append.mpr (Or.inl ?_)
        exact mem_classify_group (List.mem_filter.mpr ⟨hitem, by simp [hkey]⟩)
      · exact List.mem_append.mpr (Or.inr (ih ha))
  refine ⟨hmem, fun hfail => ?_⟩
  rw [hfail] at hmem
  exact hmem

/-- Concrete raw finding tagged with the key of the sample stock. -/
def sampleNews : NewsItem :=
  { title := "AAPL earnings", snippet := "report", url := "https://x",
    published_at := none, source := none, sentiment := none, impact := none,
    relevance_score := none, asset_related := some "stock:AAPL" }

/-- Witness for C8: with a collaborator that fails on every item, the sample
finding survives the stage unchanged. -/
theorem c8_classify_keeps_items_witness :
    sampleNews ∈ classify_news (fun _ _ => none) [sampleStock] [sampleNews] :=
  (c8_classify_keeps_items (fun _ _ => none) [sampleStock] [sampleNews]
      sampleNews sampleStock (by decide) (by decide) (by decide)).2 rfl

/-! ## C7: the session store and the last-activity timestamp -/

/-- Conversation message, from ChatMessage in models/chat.py, with time as
an abstract tick count. -/
structure ChatMessage where
  role : String
  content : String
  timestamp : Nat
  deriving DecidableEq

/-- In-progress portfolio draft, from PortfolioBuildingState in
models/chat.py, restricted to the fields the verified code paths read
(current_asset_data and next_questions are never consulted by them). -/
structure PortfolioBuildingState where
  assets : List Asset
  current_asset_type : Option String
  validation_errors : List String
  is_complete : Bool
  deriving DecidableEq

/-- Conversation session, from ChatSession in models/chat.py: message log,
draft portfolio, creation and last-activity instants. -/
structure ChatSession where
  session_id : String
  user_id : Option String
  messages : List ChatMessage
  portfolio_state : PortfolioBuildingState
  created_at : Nat
  last_activity : Nat
  deriving DecidableEq

/-- ChatSession.add_message: appends to the ordered message log and touches
last_activity with the current time. -/
def ChatSession.add_message (s : ChatSession) (now : Nat)
    (role content : String) : ChatSession :=
  { s with
    messages := s.messages ++ [{ role := role, content := content, timestamp := now }]
    last_activity := now }

/-- In-memory session store: the process-local map keyed by session id and
the idle TTL, from InMemorySessionStorage in backend/app/agents/session.py. -/
structure InMemoryStore where
  sessions : String → Option ChatSession
  ttl : Nat

/-- Lazy expiry check _is_expired: now minus last_activity exceeds the TTL. -/
def InMemoryStore.is_expired (st : InMemoryStore) (now : Nat)
    (s : ChatSession) : Bool :=
  decide (now - s.last_activity > st.ttl)

/-- InMemorySessionStorage.get: deletes and misses when the stored session
is expired, otherwise returns the stored session object unchanged. The
returned store is the (possibly pruned) map. -/
def InMemoryStore.get (st : InMemoryStore) (now : Nat) (session_id : String) :
    Option ChatSession × InMemoryStore :=
  match st.sessions session_id with
  | none => (none, st)
  | some s =>
    if st.is_expired now s then
      (none,
        { st with
          sessions := fun k => if k = session_id then none else st.sessions k })
    else (some s, st)

/-- InMemorySessionStorage.set: stores the given session object as is. -/
def InMemoryStore.set (st : InMemoryStore) (session_id : String)
    (s : ChatSession) : InMemoryStore :=
  { st with
    sessions := fun k => if k = session_id then some s else st.sessions k }

/-- Session last active at tick 0, with an empty log and draft. -/
def staleSession : ChatSession :=
  { session_id := "s1", user_id := none, messages := []
    portfolio_state :=
      { assets := [], current_asset_type := none, validation_errors := []
        is_complete := false }
    created_at := 0, last_activity := 0 }

/-- Store holding only the stale session, with a TTL of 60 ticks. -/
def staleStore : InMemoryStore :=
  { sessions := fun k => if k = "s1" then some staleSession else none
    ttl := 60 }

/-- Counterexample to C7 as stated: reading the session last active at tick
0 from the store at tick 10 (within the 60-tick TTL) succeeds and returns
it with last_activity still 0, not the access time; so it is false that
every successful get leaves the last-activity equal to the time of that
access. -/
theorem c7_get_does_not_touch_counterexample :
    (staleStore.get 10 "s1").1 = some staleSession
      ∧ staleSession.last_activity = 0
      ∧ ¬ (∀ (st : InMemoryStore) (now : Nat) (id : String) (s : ChatSession),
            (st.get now id).1 = some s → s.last_activity = now) := by
  refine ⟨by decide, rfl, fun h => ?_⟩
  have h10 := h staleStore 10 "s1" staleSession (by decide)
  simp [staleSession] at h10

/-- C7 amended: the store itself never touches last_activity. A successful
get returns the session exactly as stored, with its stored last_activity
(which the expiry check bounds within TTL of the access time); set stores
the session object unchanged; last_activity advances only when add_message
records a message, and then it equals the write time. -/
theorem c7_last_activity_only_on_message_write :
    (∀ (st : InMemoryStore) (now : Nat) (id : String) (s : ChatSession),
        (st.get now id).1 = some s →
          st.sessions id = some s ∧ now - s.last_activity ≤ st.ttl)
      ∧ (∀ (st : InMemoryStore) (id : String) (s : ChatSession),
        (st.set id s).sessions id = some s)
      ∧ (∀ (s : ChatSession) (now : Nat) (role content : String),
        (s.add_message now role content).last_activity = now
          ∧ (s.add_message now role content).messages
            = s.messages
                ++ [{ role := role, content := content, timestamp := now }]) := by
  refine ⟨fun st now id s hget => ?_, fun st id s => by simp [InMemoryStore.set],
    fun s now role content => ⟨rfl, rfl⟩⟩
  unfold InMemoryStore.get at hget
  revert hget
  cases hstore : st.sessions id with
  | none => intro hget; cases hget
  | some s0 =>
    by_cases hexp : st.is_expired now s0
    · simp [hexp]
    · simp only [hexp, if_false, Bool.false_eq_true]
      intro hget
      injection hget with hs
      subst hs
      refine ⟨rfl, ?_⟩
      unfold InMemoryStore.is_expired at hexp
      simpa using hexp

/-- Witness for the amended C7: the stale read at tick 10 satisfies the get
clause of the theorem at a concrete store. -/
theorem c7_last_activity_only_on_message_write_witness :
    staleStore.sessions "s1" = some staleSession
      ∧ 10 - staleSession.last_activity ≤ staleStore.ttl :=
  c7_last_activity_only_on_message_write.1 staleStore 10 "s1" staleSession
    (by decide)

/-! ## Conversation-pipeline model (silveragents iteration) -/

/-- Intent labels, from Intent in silveragents/models/responses.py. -/
inductive Intent where
  | start
  | add_asset
  | remove_asset
  | modify_asset
  | complete_portfolio
  | view_portfolio
  | start_over
  | unclear
  | general_question
  deriving DecidableEq

/-- Portfolio actions, from PortfolioAction in
silveragents/models/portfolio_requests.py. -/
inductive PortfolioAction where
  | add_asset
  | remove_asset
  | update_asset
  | clear_portfolio
  | confirmation_processed
  deriving DecidableEq

/-- String value of a portfolio action (the StrEnum values). -/
def PortfolioAction.str : PortfolioAction → String
  | .add_asset => "add_asset"
  | .remove_asset => "remove_asset"
  | .update_asset => "update_asset"
  | .clear_portfolio => "clear_portfolio"
  | .confirmation_processed => "confirmation_processed"

/-- Sparse extracted entity record, from EntityData in
silveragents/models/responses.py: every field optional, shares an integer,
the money fields floats. -/
structure EntityData where
  ticker : Option String
  symbol : Option String
  amount : Option ℚ
  shares : Option Int
  asset_type : Option String
  currency : Option String
  address : Option String
  lender : Option String
  market_value : Option ℚ
  balance : Option ℚ
  deriving DecidableEq

/-- Human-readable per-asset confirmation descriptor, from AssetConfirmation
in silveragents/models/portfolio_requests.py. -/
structure AssetConfirmation where
  type : String
  symbol : Option String
  name : Option String
  quantity : ℚ
  current_quantity : Option ℚ
  action : PortfolioAction
  display_text : String
  deriving DecidableEq

/-- Pending-confirmation record, from PortfolioConfirmationRequest in
silveragents/models/portfolio_requests.py (the free-form metadata bag is
not consulted by the verified paths and is omitted). -/
structure PortfolioConfirmationRequest where
  confirmation_id : String
  action : PortfolioAction
  assets : List AssetConfirmation
  message : String
  requires_confirmation : Bool
  deriving DecidableEq

/-- UI hint bag, from UIHints in silveragents/models/responses.py. -/
structure UIHints where
  show_portfolio_summary : Bool
  suggest_asset_types : Bool
  current_asset_count : Nat
  show_completion_button : Bool
  highlight_missing_info : Bool
  deriving DecidableEq

/-- The all-default hint bag UIHints(). -/
def defaultUIHints : UIHints :=
  { show_portfolio_summary := false, suggest_asset_types := false
    current_asset_count := 0, show_completion_button := false
    highlight_missing_info := false }

/-- Generated reply wrapper, from ResponseGenerationResponse in
silveragents/models/responses.py (its own hint bag is unused by the
verified paths). -/
structure ResponseGenerationResponse where
  response : String
  deriving DecidableEq

/-- Conversation-pipeline shared state, from the pydantic ChatAgentState the
silveragents chat agent walks (session, raw user text, detected intent,
extracted entities, draft reply, hint bag, optional pending confirmation,
show-form flag, error log). -/
structure SilverChatState where
  session : ChatSession
  user_message : String
  current_step : String
  intent : Intent
  entities : List EntityData
  response : ResponseGenerationResponse
  ui_hints : Option UIHints
  confirmation_request : Option PortfolioConfirmationRequest
  show_form : Bool
  errors : List String
  deriving DecidableEq

/-! ## C5: generate_response under a pending confirmation -/

/-- Single-asset confirmation prompt, from _generate_confirmation_message in
silveragents/agents/chat_agent.py. -/
def generate_confirmation_message (asset : AssetConfirmation)
    (action : PortfolioAction) : String :=
  match action with
  | .add_asset =>
    "Would you like to add " ++ asset.display_text ++ " to your portfolio?"
  | .remove_asset =>
    "Would you like to remove " ++ asset.display_text ++ " from your portfolio?"
  | .update_asset =>
    "Would you like to update " ++ asset.display_text ++ " in your portfolio?"
  | _ => "Would you like to proceed with this portfolio change?"

/-- Multi-asset confirmation prompt, from
_generate_confirmation_message_for_multiple: single-asset phrasing for one
descriptor, comma-joined display texts otherwise. -/
def generate_confirmation_message_for_multiple
    (assets : List AssetConfirmation) (action : PortfolioAction) : String :=
  match assets with
  | [asset] => generate_confirmation_message asset action
  | _ =>
    let asset_list :=
      String.intercalate ", " (assets.map (fun asset => asset.display_text))
    match action with
    | .add_asset =>
      "Would you like to add " ++ asset_list ++ " to your portfolio?"
    | .remove_asset =>
      "Would you like to remove " ++ asset_list ++ " from your portfolio?"
    | .update_asset =>
      "Would you like to update " ++ asset_list ++ " in your portfolio?"
    | _ => "Would you like to proceed with changes to " ++ asset_list ++ "?"

/-- The generate_response stage, from _generate_response_node in
silveragents/agents/chat_agent.py: under a pending confirmation the reply
is the fixed string below and the completion collaborator is skipped;
otherwise the collaborator (the oracle argument) produces the reply. The
boolean records whether the collaborator was invoked. -/
def generate_response_node
    (response_generator :
      ChatSession → String → Intent → List EntityData → ResponseGenerationResponse)
    (state : SilverChatState) : SilverChatState × Bool :=
  match state.confirmation_request with
  | some _ =>
    ({ state with
        response := { response := "Please confirm this change." }
        ui_hints := some (state.ui_hints.getD defaultUIHints) },
      false)
  | none =>
    ({ state with
        response :=
          response_generator state.session state.user_message state.intent
            state.entities },
      true)

/-- Descriptor for 100 shares of AAPL, as _build_asset_confirmation shapes
it for a stock entity. -/
def aaplConfirmation : AssetConfirmation :=
  { type := "stock", symbol := some "AAPL", name := some "AAPL"
    quantity := 100, current_quantity := some 0
    action := .add_asset, display_text := "100 shares of AAPL" }

/-- Pending confirmation whose composed prompt message is built by
prepare_confirmation from the descriptor above. -/
def aaplRequest : PortfolioConfirmationRequest :=
  { confirmation_id := "conf_1", action := .add_asset
    assets := [aaplConfirmation]
    message :=
      generate_confirmation_message_for_multiple [aaplConfirmation] .add_asset
    requires_confirmation := true }

/-- Conversation state carrying the pending AAPL confirmation. -/
def confState : SilverChatState :=
  { session := staleSession, user_message := "I have 100 shares of AAPL"
    current_step := "generate_response", intent := .add_asset
    entities := [], response := { response := "" }, ui_hints := none
    confirmation_request := some aaplRequest, show_form := false
    errors := [] }

/-- Counterexample to C5 as stated: with the AAPL confirmation pending, the
composed prompt message asks about adding 100 shares of AAPL, but the
stage sets the reply to the fixed text asking to confirm this change — the
two strings differ, so the reply is not the composed prompt message. -/
theorem c5_reply_not_prompt_counterexample :
    aaplRequest.message
        = "Would you like to add 100 shares of AAPL to your portfolio?"
      ∧ (generate_response_node (fun _ _ _ _ => { response := "llm" })
            confState).1.response.response
        = "Please confirm this change."
      ∧ (generate_response_node (fun _ _ _ _ => { response := "llm" })
            confState).1.response.response
        ≠ aaplRequest.message := by
  refine ⟨by decide, by decide, by decide⟩

/-- C5 amended: whenever a confirmation request is pending, the reply is
the fixed confirmation prompt "Please confirm this change." (not the
composed per-confirmation message), and the completion collaborator is not
invoked; without a pending confirmation the collaborator produces the
reply. -/
theorem c5_fixed_reply_under_confirmation
    (response_generator :
      ChatSession → String → Intent → List EntityData → ResponseGenerationResponse)
    (state : SilverChatState) (req : PortfolioConfirmationRequest)
    (hpending : state.confirmation_request = some req) :
    (generate_response_node response_generator state).1.response
        = { response := "Please confirm this change." }
      ∧ (generate_response_node response_generator state).2 = false := by
  unfold generate_response_node
  rw [hpending]
  exact ⟨rfl, rfl⟩

/-- Witness for the amended C5: the concrete pending-confirmation state
gets the fixed reply and skips the collaborator. -/
theorem c5_fixed_reply_under_confirmation_witness :
    (generate_response_node (fun _ _ _ _ => { response := "llm" })
          confState).1.response
        = { response := "Please confirm this change." }
      ∧ (generate_response_node (fun _ _ _ _ => { response := "llm" })
          confState).2 = false :=
  c5_fixed_reply_under_confirmation (fun _ _ _ _ => { response := "llm" })
    confState aaplRequest rfl

/-! ## C6: the decision after generate_response -/

/-- The fixed completion-keyword set shared by both iterations of the
decision (the two apostrophes are escaped character 0x27). -/
def completion_keywords : List String :=
  ["done", "finish", "complete", "review", "that\x27s all", "that\x27s it",
    "show me", "see my"]

/-- Keyword test of the decision: some completion keyword occurs in the
lower-cased user message. -/
def completion_keyword_hit (user_message : String) : Bool :=
  completion_keywords.any (fun keyword => pyIn keyword (pyLower user_message))

/-- Decision B of the silveragents pipeline, from
WorkflowUtils.should_show_form in
silveragents/agents/modules/workflow_utils.py: show_form when a
confirmation request exists; otherwise show_form when the extracted entity
list is nonempty and the message contains a completion keyword; otherwise
continue (the END edge). -/
def should_show_form (state : SilverChatState) : String :=
  if state.confirmation_request.isSome then "show_form"
  else if !state.entities.isEmpty && completion_keyword_hit state.user_message
    then "show_form"
  else "continue"

/-- Decision of the earlier app iteration, from _should_show_form in
backend/app/agents/chat_agent.py (that iteration has no confirmations):
show_form when the draft is marked complete, or when the draft holds at
least two assets and the message contains a completion keyword. -/
def should_show_form_app (session : ChatSession) (user_message : String) :
    String :=
  if session.portfolio_state.is_complete then "show_form"
  else if decide (2 ≤ session.portfolio_state.assets.length)
      && completion_keyword_hit user_message
    then "show_form"
  else "continue"

/-- Session whose draft is marked complete but holds no assets. -/
def completeDraftSession : ChatSession :=
  { session_id := "s2", user_id := none, messages := []
    portfolio_state :=
      { assets := [], current_asset_type := none, validation_errors := []
        is_complete := true }
    created_at := 0, last_activity := 0 }

/-- State after generate_response with a complete draft, no confirmation,
no entities, and a message with no completion keyword. -/
def completeDraftState : SilverChatState :=
  { session := completeDraftSession, user_message := "hello"
    current_step := "generate_response", intent := .general_question
    entities := [], response := { response := "" }, ui_hints := none
    confirmation_request := none, show_form := false, errors := [] }

/-- Counterexample to C6 as stated: in the silveragents decision a state
whose session draft is marked complete, with no confirmation request,
routes to the end marker, not to the form stage — the draft-complete
disjunct of the claim is not part of this decision function (and the
entity-count condition it uses is the nonemptiness of the extracted entity
list, not a two-asset draft minimum). -/
theorem c6_show_form_counterexample :
    should_show_form completeDraftState = "continue"
      ∧ completeDraftState.session.portfolio_state.is_complete = true
      ∧ completeDraftState.confirmation_request = none
      ∧ ¬ (∀ s : SilverChatState,
            should_show_form s = "show_form" ↔
              (s.confirmation_request.isSome = true
                ∨ s.session.portfolio_state.is_complete = true
                ∨ (completion_keyword_hit s.user_message = true
                    ∧ 2 ≤ s.session.portfolio_state.assets.length))) := by
  refine ⟨by decide, rfl, rfl, fun h => ?_⟩
  have hc := (h completeDraftState).mpr (Or.inr (Or.inl rfl))
  have hn : should_show_form completeDraftState = "continue" := by decide
  rw [hc] at hn
  exact absurd hn (by decide)

/-- C6 amended: the silveragents decision routes to the form stage exactly
when a confirmation request exists, or the extracted entity list is
nonempty and the message contains a completion keyword (draft completeness
and the draft asset count are not consulted); every other state routes to
the end marker. The earlier app iteration, which has no confirmations,
routes to the form exactly when the draft is marked complete or the
message contains a completion keyword while the draft holds at least two
assets. -/
theorem c6_show_form_rule_amended :
    (∀ s : SilverChatState,
        should_show_form s = "show_form" ↔
          (s.confirmation_request.isSome = true
            ∨ (s.entities ≠ []
                ∧ completion_keyword_hit s.user_message = true)))
      ∧ (∀ s : SilverChatState,
        should_show_form s = "show_form" ∨ should_show_form s = "continue")
      ∧ (∀ (session : ChatSession) (msg : String),
        should_show_form_app session msg = "show_form" ↔
          (session.portfolio_state.is_complete = true
            ∨ (2 ≤ session.portfolio_state.assets.length
                ∧ completion_keyword_hit msg = true))) := by
  refine ⟨fun s => ?_, fun s => ?_, fun session msg => ?_⟩
  · unfold should_show_form
    by_cases hconf : s.confirmation_request.isSome
    · simp [hconf]
    · by_cases hent : s.entities.isEmpty
      · simp [hconf, hent, List.isEmpty_iff.mp hent]
      · by_cases hkw : completion_keyword_hit s.user_message
        · simp [hconf, hent, hkw]
          exact fun h => absurd (List.isEmpty_iff.mpr h) hent
        · simp [hconf, hent, hkw]
  · unfold should_show_form
    by_cases hconf : s.confirmation_request.isSome
    · simp [hconf]
    · by_cases hrest : !s.entities.isEmpty && completion_keyword_hit s.user_message
      · simp [hconf, hrest]
      · simp [hconf, hrest]
  · unfold should_show_form_app
    by_cases hc : session.portfolio_state.is_complete
    · simp [hc]
    · by_cases hlen : 2 ≤ session.portfolio_state.assets.length
      · by_cases hkw : completion_keyword_hit msg
        · simp [hc, hlen, hkw]
        · simp [hc, hlen, hkw]
      · simp [hc, hlen]

/-! ## C2 and C10: the confirmation lifecycle -/

/-- Python truthiness of an optional string field: present and nonempty. -/
def truthyStr : Option String → Bool
  | none => false
  | some s => !s.isEmpty

/-- Python truthiness of an optional integer field: present and nonzero. -/
def truthyInt : Option Int → Bool
  | none => false
  | some n => decide (n ≠ 0)

/-- Python truthiness of an optional float field: present and nonzero. -/
def truthyRat : Option ℚ → Bool
  | none => false
  | some q => decide (q ≠ 0)

/-- Asset construction from an entity record, from _create_asset_from_entity
in silveragents/agents/chat_agent.py: fails (None) when the asset type is
unset or the required fields for that type are missing or falsy; stock
tickers and crypto symbols are upper-cased; the EntityData record has no
property_address field, so the mortgage branch reads None for it. -/
def create_asset_from_entity (entity : EntityData) : Option Asset :=
  if !truthyStr entity.asset_type then none
  else
    let asset_type := pyLower (entity.asset_type.getD "")
    if asset_type = "stock" then
      if truthyStr entity.ticker && truthyInt entity.shares then
        some (.stock (pyUpper (entity.ticker.getD ""))
          ((entity.shares.getD 0 : Int) : ℚ))
      else none
    else if asset_type = "crypto" || asset_type = "cryptocurrency" then
      if truthyStr entity.symbol && truthyRat entity.amount then
        some (.crypto (pyUpper (entity.symbol.getD "")) (entity.amount.getD 0))
      else none
    else if asset_type = "real_estate" || asset_type = "realestate"
        || asset_type = "property" then
      if truthyStr entity.address && truthyRat entity.market_value then
        some (.realEstate (entity.address.getD "") (entity.market_value.getD 0))
      else none
    else if asset_type = "mortgage" then
      if truthyStr entity.lender && truthyRat entity.balance then
        some (.mortgage (entity.lender.getD "") (entity.balance.getD 0) none)
      else none
    else if asset_type = "cash" then
      if truthyRat entity.amount then
        some (.cash
          (if truthyStr entity.currency then entity.currency.getD "" else "USD")
          (entity.amount.getD 0))
      else none
    else none

/-- Conversion of an asset to relational fields, from
PortfolioService._prepare_asset_data: symbol, asset-type string and
quantity (the metadata dictionary it also returns is not consulted by the
verified callers). -/
def prepare_asset_data : Asset → String × String × ℚ
  | .stock t s => (t, "stock", s)
  | .crypto sym a => (sym, "crypto", a)
  | .realEstate ad v => (ad, "real_estate", v)
  | .mortgage l b _ => (l, "mortgage", b)
  | .cash c a => (c, "cash", a)

/-- One call into the relational persistence layer. -/
inductive ServiceCall where
  | add (user_id : String) (asset : Asset)
  | remove (user_id symbol asset_type : String)
  | update (user_id symbol asset_type : String) (new_quantity : ℚ)
  deriving DecidableEq

/-- Result record of a portfolio action, from PortfolioActionResult in
silveragents/models/portfolio_responses.py (the summary payload is carried
opaquely). -/
structure PortfolioActionResult where
  success : Bool
  action : PortfolioAction
  message : String
  portfolio_updated : Bool
  portfolio_summary : Option String
  error : Option String
  deriving DecidableEq

/-- Execution of a confirmed action, from _execute_portfolio_action in
silveragents/agents/chat_agent.py: only entities[0] is consulted; one
service call is made when an asset can be built from it and the action is
one of add, remove, update. The second component lists the service calls
made, in order. -/
def execute_portfolio_action
    (service : ServiceCall → PortfolioActionResult)
    (user_id : String) (action : PortfolioAction)
    (entities : List EntityData) :
    PortfolioActionResult × List ServiceCall :=
  match entities.head? with
  | none =>
    ({ success := false, action := action, message := "No entity data provided"
       portfolio_updated := false, portfolio_summary := none, error := none },
      [])
  | some primary_entity =>
    match create_asset_from_entity primary_entity with
    | none =>
      ({ success := false, action := action
         message := "Could not create asset from provided information"
         portfolio_updated := false, portfolio_summary := none, error := none },
        [])
    | some asset =>
      match action with
      | .add_asset =>
        (service (.add user_id asset), [.add user_id asset])
      | .remove_asset =>
        let fields := prepare_asset_data asset
        (service (.remove user_id fields.1 fields.2.1),
          [.remove user_id fields.1 fields.2.1])
      | .update_asset =>
        let fields := prepare_asset_data asset
        (service (.update user_id fields.1 fields.2.1 fields.2.2),
          [.update user_id fields.1 fields.2.1 fields.2.2])
      | other =>
        ({ success := false, action := other
           message := "Unknown action: " ++ other.str
           portfolio_updated := false, portfolio_summary := none, error := none },
          [])

/-- Value stored under a confirmation id by prepare_confirmation. -/
structure PendingEntry where
  request : PortfolioConfirmationRequest
  session_id : String
  entities : List EntityData
  intent : Intent

/-- The not-found failure returned when the confirmation id is absent. -/
def not_found_result : PortfolioActionResult :=
  { success := false, action := .add_asset
    message := "Confirmation request not found or expired"
    portfolio_updated := false, portfolio_summary := none, error := none }

/-- Resolution of a pending confirmation, from process_confirmation in
silveragents/agents/chat_agent.py: a missing id fails with not-found and
changes nothing; a found id is deleted from the pending map before any
other step; a rejection then cancels without touching the portfolio; an
acceptance executes the action through _execute_portfolio_action and wraps
the result (fetching a summary on success, substituting a fixed message for
an empty failure message). The isinstance guards of the source always pass
in this typed model. Returns the result, the pending map after the call,
and the service calls made. -/
def process_confirmation
    (pending_confirmations : String → Option PendingEntry)
    (service : ServiceCall → PortfolioActionResult)
    (get_portfolio_summary : String → Option String)
    (confirmation_id : String) (confirmed : Bool) (user_id : String) :
    PortfolioActionResult × (String → Option PendingEntry) × List ServiceCall :=
  match pending_confirmations confirmation_id with
  | none => (not_found_result, pending_confirmations, [])
  | some pending =>
    let remaining :=
      fun k => if k = confirmation_id then none else pending_confirmations k
    if !confirmed then
      ({ success := true, action := .add_asset, message := "Action cancelled"
         portfolio_updated := false, portfolio_summary := none, error := none },
        remaining, [])
    else
      let rc :=
        execute_portfolio_action service user_id pending.request.action
          pending.entities
      if rc.1.success then
        ({ success := true, action := pending.request.action
           message := rc.1.message, portfolio_updated := true
           portfolio_summary := get_portfolio_summary user_id, error := none },
          remaining, rc.2)
      else
        ({ success := false, action := pending.request.action
           message :=
             if rc.1.message.isEmpty then "Failed to update portfolio"
             else rc.1.message
           portfolio_updated := false, portfolio_summary := none
           error := rc.1.error },
          remaining, rc.2)

/-- Helper: a confirmation id absent from the pending map resolves to the
not-found failure, leaves the map untouched and calls no service. -/
theorem process_confirmation_not_found
    (pending_confirmations : String → Option PendingEntry)
    (service : ServiceCall → PortfolioActionResult)
    (get_portfolio_summary : String → Option String)
    (confirmation_id : String) (confirmed : Bool) (user_id : String)
    (habsent : pending_confirmations confirmation_id = none) :
    process_confirmation pending_confirmations service get_portfolio_summary
        confirmation_id confirmed user_id
      = (not_found_result, pending_confirmations, []) := by
  unfold process_confirmation
  rw [habsent]

/-- C2: resolving a pending confirmation twice fails the second time. After
a first call on an id present in the pending map — whether confirmed or
rejected — the id is gone from the resulting map, and a second call on the
same id returns the not-found failure, changes nothing and performs no
portfolio action, regardless of its confirmed argument. -/
theorem c2_confirmation_single_use
    (pending_confirmations : String → Option PendingEntry)
    (service : ServiceCall → PortfolioActionResult)
    (get_portfolio_summary : String → Option String)
    (confirmation_id user_id₁ user_id₂ : String)
    (confirmed₁ confirmed₂ : Bool) (entry : PendingEntry)
    (hfound : pending_confirmations confirmation_id = some entry) :
    ((process_confirmation pending_confirmations service get_portfolio_summary
          confirmation_id confirmed₁ user_id₁).2.1 confirmation_id = none)
      ∧ process_confirmation
          (process_confirmation pending_confirmations service
              get_portfolio_summary confirmation_id confirmed₁ user_id₁).2.1
          service get_portfolio_summary confirmation_id confirmed₂ user_id₂
        = (not_found_result,
            (process_confirmation pending_confirmations service
                get_portfolio_summary confirmation_id confirmed₁ user_id₁).2.1,
            []) := by
  have hrem : (process_confirmation pending_confirmations service
      get_portfolio_summary confirmation_id confirmed₁ user_id₁).2.1
        confirmation_id = none := by
    unfold process_confirmation
    rw [hfound]
    by_cases hc : confirmed₁
    · simp only [hc, Bool.not_true, Bool.false_eq_true, if_false]
      by_cases hs : (execute_portfolio_action service user_id₁
          entry.request.action entry.entities).1.success
      · simp [hs]
      · simp [hs]
    · simp [hc]
  exact ⟨hrem,
    process_confirmation_not_found _ service get_portfolio_summary
      confirmation_id confirmed₂ user_id₂ hrem⟩

/-- Stock entity for 100 shares of AAPL. -/
def aaplEntity : EntityData :=
  { ticker := some "AAPL", symbol := none, amount := none, shares := some 100
    asset_type := some "stock", currency := none, address := none
    lender := none, market_value := none, balance := none }

/-- Second extracted entity, for half a BTC. -/
def btcEntity : EntityData :=
  { ticker := none, symbol := some "BTC", amount := some (mkRat 1 2)
    shares := none, asset_type := some "crypto", currency := none
    address := none, lender := none, market_value := none, balance := none }

/-- Relational service oracle that reports success on every call. -/
def okService : ServiceCall → PortfolioActionResult :=
  fun _ =>
    { success := true, action := .add_asset, message := "ok"
      portfolio_updated := true, portfolio_summary := none, error := none }

/-- Pending map holding one confirmation under the id conf_1. -/
def samplePending : String → Option PendingEntry :=
  fun k =>
    if k = "conf_1" then
      some { request := aaplRequest, session_id := "s1"
             entities := [aaplEntity], intent := .add_asset }
    else none

/-- Witness for C2: confirming conf_1 once removes it, and a second
resolution attempt (here a rejection) fails with not-found, without any
service call. -/
theorem c2_confirmation_single_use_witness :
    ((process_confirmation samplePending okService (fun _ => none) "conf_1"
          true "u1").2.1 "conf_1" = none)
      ∧ process_confirmation
          (process_confirmation samplePending okService (fun _ => none)
              "conf_1" true "u1").2.1
          okService (fun _ => none) "conf_1" false "u2"
        = (not_found_result,
            (process_confirmation samplePending okService (fun _ => none)
                "conf_1" true "u1").2.1,
            []) :=
  c2_confirmation_single_use samplePending okService (fun _ => none) "conf_1"
    "u1" "u2" true false _ rfl

/-- C10: only the first extracted entity is executed. Extending the entity
list beyond its head changes neither the result nor the service calls of
_execute_portfolio_action, at most one service call is ever made, and for
the concrete two-entity confirmation (AAPL stock then BTC crypto) exactly
one call is made: the add of the AAPL stock built from the first entity. -/
theorem c10_only_first_entity_executed :
    (∀ (service : ServiceCall → PortfolioActionResult) (user_id : String)
        (action : PortfolioAction) (entity : EntityData)
        (rest : List EntityData),
      execute_portfolio_action service user_id action (entity :: rest)
        = execute_portfolio_action service user_id action [entity])
      ∧ (∀ (service : ServiceCall → PortfolioActionResult) (user_id : String)
          (action : PortfolioAction) (entities : List EntityData),
        (execute_portfolio_action service user_id action entities).2.length ≤ 1)
      ∧ (execute_portfolio_action okService "u1" .add_asset
            [aaplEntity, btcEntity]).2
        = [.add "u1" (.stock "AAPL" 100)] := by
  refine ⟨fun service user_id action entity rest => rfl,
    fun service user_id action entities => ?_, by decide⟩
  unfold execute_portfolio_action
  cases hh : entities.head? with
  | none => simp
  | some primary_entity =>
    cases hc : create_asset_from_entity primary_entity with
    | none => simp [hc]
    | some asset => cases action <;> simp [hc]

/-! ## C3: reference resolution over extracted entities -/

/-- Word character of the regex word boundary (backslash-w): letters,
digits, underscore. -/
def isWordCharPy (c : Char) : Bool := c.isAlphanum || c == '_'

/-- State of the number scanner derived from the backtracking semantics of
the findall pattern of _resolve_references (word boundary, digits, optional
dot and digits, word boundary): between candidates carrying the wordness of
the previous character, inside the integer digits, just after the dot, or
inside the fraction digits. -/
inductive ScanState where
  | idle (prevWord : Bool)
  | intPart (ds : List Char)
  | afterDot (ds : List Char)
  | fracPart (ds fs : List Char)

/-- Character automaton equivalent to re.findall of the decimal-number
pattern over the message text, emitting matched tokens left to right: a
digit run starting at a word boundary matches; a following dot-and-digits
fraction is included when the fraction also ends at a boundary; a run
abutting a word character on either side is rejected there, exactly as the
backtracking pattern behaves. -/
def scanNumbers : ScanState → List Char → List String
  | .idle _, [] => []
  | .intPart ds, [] => [⟨ds⟩]
  | .afterDot ds, [] => [⟨ds⟩]
  | .fracPart ds fs, [] => [⟨ds ++ '.' :: fs⟩]
  | .idle p, c :: cs =>
    if !p && c.isDigit then scanNumbers (.intPart [c]) cs
    else scanNumbers (.idle (isWordCharPy c)) cs
  | .intPart ds, c :: cs =>
    if c.isDigit then scanNumbers (.intPart (ds ++ [c])) cs
    else if c == '.' then scanNumbers (.afterDot ds) cs
    else if isWordCharPy c then scanNumbers (.idle true) cs
    else ⟨ds⟩ :: scanNumbers (.idle false) cs
  | .afterDot ds, c :: cs =>
    if c.isDigit then scanNumbers (.fracPart ds [c]) cs
    else ⟨ds⟩ :: scanNumbers (.idle (isWordCharPy c)) cs
  | .fracPart ds fs, c :: cs =>
    if c.isDigit then scanNumbers (.fracPart ds (fs ++ [c])) cs
    else if isWordCharPy c then ⟨ds⟩ :: scanNumbers (.idle true) cs
    else ⟨ds ++ '.' :: fs⟩ :: scanNumbers (.idle (isWordCharPy c)) cs

/-- re.findall of the decimal pattern over one message body. -/
def py_findall_numbers (content : String) : List String :=
  scanNumbers (.idle false) content.data

/-- Numeric value of a digit string. -/
def digitsToNat (ds : List Char) : Nat :=
  ds.foldl (fun n c => 10 * n + (c.toNat - 48)) 0

/-- Split of a character list at the dots. -/
def splitOnDot : List Char → List (List Char)
  | [] => [[]]
  | c :: rest =>
    if c == '.' then [] :: splitOnDot rest
    else
      match splitOnDot rest with
      | [] => [[c]]
      | h :: t => (c :: h) :: t

/-- Python float() on the tokens the scanner produces: plain digits, or
digits with a fraction, read as the exact rational. -/
def pyFloat (token : String) : ℚ :=
  match splitOnDot token.data with
  | [intPart] => mkRat (digitsToNat intPart) 1
  | [intPart, fracPart] =>
    mkRat (digitsToNat (intPart ++ fracPart)) (10 ^ fracPart.length)
  | _ => 0

/-- The recent_amounts accumulator of _resolve_references in
backend/app/agents/chat_agent.py (identical in
EntityExtractor.resolve_references): numeric tokens of the non-assistant
messages among the last four, in chronological order. -/
def recent_amounts (messages : List ChatMessage) : List String :=
  ((messages.drop (messages.length - 4)).filter
      (fun m => !(m.role == "assistant"))).flatMap
    (fun m => py_findall_numbers m.content)

/-- The entity dictionary _resolve_references operates on, restricted to
the keys it reads or writes (type, ticker, amount, shares); every other key
passes through untouched since only these are ever assigned. A present
falsy value (empty string, zero) tests as unset under Python truthiness,
exactly as the `not entities.get(...)` guards behave. -/
structure EntityDict where
  type : Option String
  ticker : Option String
  amount : Option ℚ
  shares : Option ℚ
  deriving DecidableEq

/-- First phase of _resolve_references: inherit the asset type from the
draft when the incoming record has no truthy type. -/
def resolve_type_reference (entities : EntityDict) (session : ChatSession) :
    EntityDict :=
  if truthyStr session.portfolio_state.current_asset_type
      && !truthyStr entities.type then
    { entities with type := session.portfolio_state.current_asset_type }
  else entities

/-- Second phase of _resolve_references: when the message log is nonempty,
both amount and shares are falsy, and the last four messages contain
numeric tokens in non-assistant text, take the most recent token and assign
it to shares when the (resolved) type equals stock, to amount otherwise. -/
def resolve_amount_reference (entities : EntityDict) (session : ChatSession) :
    EntityDict :=
  if !session.messages.isEmpty then
    let amounts := recent_amounts session.messages
    if !truthyRat entities.amount && !truthyRat entities.shares
        && !amounts.isEmpty then
      if entities.type == some "stock" then
        { entities with shares := some (pyFloat (amounts.getLast?.getD "")) }
      else
        { entities with amount := some (pyFloat (amounts.getLast?.getD "")) }
    else entities
  else entities

/-- Reference resolution, from _resolve_references in
backend/app/agents/chat_agent.py: the type-inheritance phase followed by
the amount-resolution phase. -/
def resolve_references (entities : EntityDict) (session : ChatSession) :
    EntityDict :=
  resolve_amount_reference (resolve_type_reference entities session) session

/-- Helper: the type phase never touches ticker, amount or shares. -/
theorem resolve_type_reference_other_fields (e : EntityDict)
    (s : ChatSession) :
    (resolve_type_reference e s).ticker = e.ticker
      ∧ (resolve_type_reference e s).amount = e.amount
      ∧ (resolve_type_reference e s).shares = e.shares := by
  unfold resolve_type_reference
  split <;> exact ⟨rfl, rfl, rfl⟩

/-- Helper: a truthy incoming type blocks the type phase entirely. -/
theorem resolve_type_reference_truthy (e : EntityDict) (s : ChatSession)
    (h : truthyStr e.type = true) : resolve_type_reference e s = e := by
  unfold resolve_type_reference
  simp [h]

/-- Helper: the amount phase never touches ticker or type. -/
theorem resolve_amount_reference_other_fields (e : EntityDict)
    (s : ChatSession) :
    (resolve_amount_reference e s).ticker = e.ticker
      ∧ (resolve_amount_reference e s).type = e.type := by
  unfold resolve_amount_reference
  by_cases h1 : s.messages.isEmpty
  · simp [h1]
  · by_cases h2 : (!truthyRat e.amount && !truthyRat e.shares
        && !(recent_amounts s.messages).isEmpty) = true
    · by_cases h3 : e.type == some "stock"
      · simp [h1, h2, h3]
      · simp [h1, h2, h3]
    · simp [h1, h2]

/-- Helper: a truthy amount or truthy shares blocks the amount phase. -/
theorem resolve_amount_reference_truthy (e : EntityDict) (s : ChatSession)
    (h : truthyRat e.amount = true ∨ truthyRat e.shares = true) :
    resolve_amount_reference e s = e := by
  unfold resolve_amount_reference
  rcases h with h | h <;> by_cases h1 : s.messages.isEmpty <;> simp [h, h1]

/-- Entity record carrying a present but zero — hence falsy — amount. -/
def zeroAmountEntity : EntityDict :=
  { type := some "crypto", ticker := none, amount := some 0, shares := none }

/-- Session whose one (user) message mentions the number 50, with no draft
asset type. -/
def fiftySession : ChatSession :=
  { session_id := "s4", user_id := none
    messages := [{ role := "user", content := "the same, 50", timestamp := 0 }]
    portfolio_state :=
      { assets := [], current_asset_type := none, validation_errors := []
        is_complete := false }
    created_at := 0, last_activity := 0 }

/-- Counterexample to C3 as stated: the amount field is present (set to 0)
in the incoming record, yet resolution overwrites it with the recently
mentioned 50, because the truthiness guards treat a zero value as unset; so
it is false that a field already present in the record is never
overwritten. -/
theorem c3_overwrite_counterexample :
    zeroAmountEntity.amount = some 0
      ∧ (resolve_references zeroAmountEntity fiftySession).amount = some 50
      ∧ ¬ (∀ (e : EntityDict) (s : ChatSession),
            e.amount.isSome = true →
              (resolve_references e s).amount = e.amount) := by
  refine ⟨rfl, by decide, fun h => ?_⟩
  have h50 := h zeroAmountEntity fiftySession rfl
  have hne : (resolve_references zeroAmountEntity fiftySession).amount
      ≠ zeroAmountEntity.amount := by decide
  exact hne h50

/-- Incoming entity record with no field set. -/
def emptyEntity : EntityDict :=
  { type := none, ticker := none, amount := none, shares := none }

/-- Session with draft asset type stock and a prior user message containing
100 shares. -/
def stockDraftSession : ChatSession :=
  { session_id := "s5", user_id := none
    messages :=
      [{ role := "user", content := "I have 100 shares", timestamp := 0 }]
    portfolio_state :=
      { assets := [], current_asset_type := some "stock"
        validation_errors := [], is_complete := false }
    created_at := 0, last_activity := 0 }

/-- Session with draft asset type crypto and a prior user message
mentioning 50. -/
def cryptoDraftSession : ChatSession :=
  { session_id := "s6", user_id := none
    messages := [{ role := "user", content := "the same, 50", timestamp := 0 }]
    portfolio_state :=
      { assets := [], current_asset_type := some "crypto"
        validation_errors := [], is_complete := false }
    created_at := 0, last_activity := 0 }

/-- C3 amended: resolution never overwrites a field holding a truthy value:
ticker is never touched at all, a nonempty type is preserved, and a nonzero
amount or nonzero shares blocks the number-resolution phase entirely (a
present falsy value, such as amount 0, counts as unset and may be filled).
The specified scenario holds: an empty record with draft type stock and a
prior message containing 100 shares resolves to type stock with shares 100,
and with draft type crypto the most recent number 50 goes to amount
instead. -/
theorem c3_resolution_fills_only_unset :
    (∀ (e : EntityDict) (s : ChatSession),
        (resolve_references e s).ticker = e.ticker
          ∧ (truthyStr e.type = true → (resolve_references e s).type = e.type)
          ∧ (truthyRat e.amount = true →
              (resolve_references e s).amount = e.amount
                ∧ (resolve_references e s).shares = e.shares)
          ∧ (truthyRat e.shares = true →
              (resolve_references e s).amount = e.amount
                ∧ (resolve_references e s).shares = e.shares))
      ∧ resolve_references emptyEntity stockDraftSession
          = { type := some "stock", ticker := none, amount := none
              shares := some 100 }
      ∧ resolve_references emptyEntity cryptoDraftSession
          = { type := some "crypto", ticker := none, amount := some 50
              shares := none } := by
  refine ⟨fun e s => ?_, by decide, by decide⟩
  unfold resolve_references
  have hother := resolve_type_reference_other_fields e s
  refine ⟨?_, fun ht => ?_, fun ha => ?_, fun hs => ?_⟩
  · rw [(resolve_amount_reference_other_fields _ _).1, hother.1]
  · rw [resolve_type_reference_truthy e s ht,
      (resolve_amount_reference_other_fields e s).2]
  · rw [resolve_amount_reference_truthy _ s
      (Or.inl (by rw [hother.2.1]; exact ha))]
    exact ⟨hother.2.1, hother.2.2⟩
  · rw [resolve_amount_reference_truthy _ s
      (Or.inr (by rw [hother.2.2]; exact hs))]
    exact ⟨hother.2.1, hother.2.2⟩

/-- Entity record with every relevant field truthy. -/
def fullDict : EntityDict :=
  { type := some "stock", ticker := some "AAPL", amount := some 5
    shares := some 100 }

/-- Witness for the amended C3: on a fully populated record, resolution
preserves type, amount and shares at a concrete session. -/
theorem c3_resolution_fills_only_unset_witness :
    (resolve_references fullDict stockDraftSession).type = fullDict.type
      ∧ (resolve_references fullDict stockDraftSession).amount
          = fullDict.amount
      ∧ (resolve_references fullDict stockDraftSession).shares
          = fullDict.shares :=
  ⟨(c3_resolution_fills_only_unset.1 fullDict stockDraftSession).2.1
      (by decide),
    ((c3_resolution_fills_only_unset.1 fullDict stockDraftSession).2.2.1
      (by decide)).1,
    ((c3_resolution_fills_only_unset.1 fullDict stockDraftSession).2.2.1
      (by decide)).2⟩
